import Mathlib

/-!
Verification development for the codesacan repository: a shallow embedding of
the scan pipeline (source classifier, entity extractor / graph builder in
`codescan_lib/analyzer.py` and `codescan_lib/utils.py`) and of the graph query
layer (`codescan_lib/mcp_tools/`), together with theorems settling the frozen
claims about the natural-language specification.

Modelling conventions:
* The Neo4j store is modelled as an explicit in-memory graph (`Graph`): lists
  of property nodes and relationships with the MERGE / MATCH semantics the
  Cypher statements of the source rely on (a MERGE pattern matches any
  node/relationship carrying at least the given labels and exactly the given
  property values, and creates one otherwise).
* The Python `ast` module is modelled by the inductive `Ast` fragment covering
  every construct the analyzer inspects; `ast.NodeVisitor` dispatch and
  `generic_visit` child traversal are modelled by the mutual `visitNode` /
  `visitAstList` recursion.
* Environment-derived data (`BUILTIN_FUNCTIONS = set(dir(builtins))` and the
  `sys.path` probing of `is_stdlib_module`) is passed as an explicit
  configuration value, since its contents come from the Python runtime and not
  from the repository.
* The `StatsCollector` calls of the analyzer only accumulate reporting
  statistics and never touch the graph; they are omitted from the graph model.
-/

set_option maxRecDepth 20000

namespace CodeScan

/-! ## Python values and the modelled `ast` fragment -/

/-- Python scalar literal values as they appear in `ast.Constant` nodes.
Floating point literals are not modelled (no claim depends on them). -/
inductive PyVal where
  | vNone
  | vBool (b : Bool)
  | vInt (n : Int)
  | vStr (s : String)
deriving DecidableEq, Repr

/-- Python `repr` of the modelled scalar values (used by
`_extract_constant_value` and by the argument serialization of `visit_Call`). -/
def pyRepr : PyVal → String
  | .vNone => "None"
  | .vBool true => "True"
  | .vBool false => "False"
  | .vInt n => toString n
  | .vStr s => "\x27" ++ s ++ "\x27"

/-- Python `type(v).__name__` for the modelled scalar values;
`None` is reported as `NoneType` (analyzer.py line 256). -/
def pyTypeName : PyVal → String
  | .vNone => "NoneType"
  | .vBool _ => "bool"
  | .vInt _ => "int"
  | .vStr _ => "str"

mutual
/-- The fragment of the Python `ast` node language the analyzer inspects.
`importS` / `importFromS` carry `(name, asname)` alias pairs.  Statements and
expressions share one type, as in the `ast` module itself. -/
inductive Ast where
  | functionDef (name : String) (lineno end_lineno : Int) (body : AstList)
  | classDef (name : String) (lineno end_lineno : Int) (body : AstList)
  | assign (targets : AstList) (value : Ast) (lineno end_lineno : Int)
  | call (func : Ast) (args : AstList) (lineno : Int)
  | attributeE (value : Ast) (attr : String)
  | nameE (id : String)
  | constE (v : PyVal)
  | listE (elts : AstList)
  | dictE (keys : AstOptList) (values : AstList)
  | tupleE (elts : AstList)
  | setE (elts : AstList)
  | usubE (operand : Ast)
  | uopOtherE (operand : Ast)
  | importS (names : List (String × Option String))
  | importFromS (module : String) (names : List (String × Option String))
  | exprStmt (value : Ast)
  | passS
deriving DecidableEq

/-- A list of child nodes (the nested-list spine of `Ast`). -/
inductive AstList where
  | nil
  | cons (a : Ast) (l : AstList)
deriving DecidableEq

/-- A list of optional child nodes (`ast.Dict.keys` may contain `None`
for `**` unpacking entries). -/
inductive AstOptList where
  | nil
  | consNone (l : AstOptList)
  | consSome (a : Ast) (l : AstOptList)
deriving DecidableEq
end

mutual
/-- A compact rendering standing in for Python `ast.dump` (used by the
analyzer only as an opaque serialization of unrecognized expressions and
arguments; no claim depends on its exact text). -/
def astDump : Ast → String
  | .functionDef n _ _ b => "FunctionDef(" ++ n ++ ", " ++ astDumpList b ++ ")"
  | .classDef n _ _ b => "ClassDef(" ++ n ++ ", " ++ astDumpList b ++ ")"
  | .assign t v _ _ => "Assign(" ++ astDumpList t ++ ", " ++ astDump v ++ ")"
  | .call f a _ => "Call(" ++ astDump f ++ ", " ++ astDumpList a ++ ")"
  | .attributeE v a => "Attribute(" ++ astDump v ++ ", " ++ a ++ ")"
  | .nameE i => "Name(" ++ i ++ ")"
  | .constE v => "Constant(" ++ pyRepr v ++ ")"
  | .listE l => "List(" ++ astDumpList l ++ ")"
  | .dictE k v => "Dict(" ++ astDumpOptList k ++ ", " ++ astDumpList v ++ ")"
  | .tupleE l => "Tuple(" ++ astDumpList l ++ ")"
  | .setE l => "Set(" ++ astDumpList l ++ ")"
  | .usubE o => "UnaryOp(USub, " ++ astDump o ++ ")"
  | .uopOtherE o => "UnaryOp(Other, " ++ astDump o ++ ")"
  | .importS _ => "Import()"
  | .importFromS m _ => "ImportFrom(" ++ m ++ ")"
  | .exprStmt v => "Expr(" ++ astDump v ++ ")"
  | .passS => "Pass()"

def astDumpList : AstList → String
  | .nil => ""
  | .cons a .nil => astDump a
  | .cons a l => astDump a ++ ", " ++ astDumpList l

def astDumpOptList : AstOptList → String
  | .nil => ""
  | .consNone l => "None, " ++ astDumpOptList l
  | .consSome a l => astDump a ++ ", " ++ astDumpOptList l
end

/-- `", ".join` as used for dict/list/tuple/set serializations and call
argument lists. -/
def joinComma (l : List String) : String :=
  String.intercalate ", " l

mutual
/-- Embeds `CodeAnalyzer._extract_constant_value` (analyzer.py lines 240-289):
returns the normalized textual value together with a type tag. -/
def extractConstantValue : Ast → String × String
  | .constE v => (pyRepr v, pyTypeName v)
  | .listE elts => ("[" ++ joinComma (extractValueList elts) ++ "]", "list")
  | .dictE keys values =>
      let ks := extractKeyList keys
      let vs := extractValueList values
      let items := List.zipWith (fun k v => k ++ ": " ++ v) ks vs
      ("\x7b" ++ joinComma items ++ "\x7d", "dict")
  | .tupleE elts => ("(" ++ joinComma (extractValueList elts) ++ ")", "tuple")
  | .setE elts => ("\x7b" ++ joinComma (extractValueList elts) ++ "\x7d", "set")
  | .usubE operand =>
      let (ov, ot) := extractConstantValue operand
      ("-" ++ ov, ot)
  | .uopOtherE o => (astDump (.uopOtherE o), "expression")
  | e => (astDump e, "expression")

def extractValueList : AstList → List String
  | .nil => []
  | .cons a l => (extractConstantValue a).1 :: extractValueList l

def extractKeyList : AstOptList → List String
  | .nil => []
  | .consNone l => "None" :: extractKeyList l
  | .consSome a l => (extractConstantValue a).1 :: extractKeyList l
end

/-! ## The graph store model

The store is the Neo4j database reached through `session.run`.  Only the two
statement shapes the scanner issues are needed: `MERGE` (match-or-create by
labels and exact property values) and `MATCH` (filter by labels and property
values).  A pattern's property map constrains exactly the listed keys; a
matched node or relationship may carry additional labels and properties. -/

/-- The node property keys used by the scanner's Cypher statements.
`ctype` models the property key `type` of Constant nodes, `aliasName` the key
`alias` and `modName` the key `module` of Import nodes; a `none` field means
the property is absent.  -/
structure NodeProps where
  name : Option String := none
  file : Option String := none
  value : Option String := none
  ctype : Option String := none
  scope : Option String := none
  aliasName : Option String := none
  modName : Option String := none
  is_reference : Option Bool := none
  line : Option Int := none
  end_line : Option Int := none
  length : Option Int := none
deriving DecidableEq, Repr

/-- The relationship property keys used by the scanner's Cypher statements. -/
structure RelProps where
  color : Option String := none
  line : Option Int := none
  args : Option String := none
  method : Option String := none
deriving DecidableEq, Repr

/-- A stored node: identity, labels and properties. -/
structure Node where
  id : Nat
  labels : List String
  props : NodeProps
deriving DecidableEq, Repr

/-- A stored relationship: identity, endpoints (node ids), type name and
properties. -/
structure Rel where
  rid : Nat
  src : Nat
  dst : Nat
  rtype : String
  props : RelProps
deriving DecidableEq, Repr

/-- The graph database state. -/
structure Graph where
  nodes : List Node := []
  rels : List Rel := []
  nextId : Nat := 0
  nextRid : Nat := 0
deriving DecidableEq, Repr

/-- The empty database (state after `clear_database`). -/
def Graph.empty : Graph := {}

/-- Does a possibly-absent queried property value constrain a stored one?
`none` in the query means the key is not mentioned by the pattern. -/
def optConstrains {α : Type} [DecidableEq α] (q p : Option α) : Bool :=
  match q with
  | none => true
  | some v => decide (p = some v)

/-- A node-pattern property map matches a stored property map when every
mentioned key has exactly the given value. -/
def nodePropsMatch (q p : NodeProps) : Bool :=
  optConstrains q.name p.name && optConstrains q.file p.file &&
  optConstrains q.value p.value && optConstrains q.ctype p.ctype &&
  optConstrains q.scope p.scope && optConstrains q.aliasName p.aliasName &&
  optConstrains q.modName p.modName &&
  optConstrains q.is_reference p.is_reference &&
  optConstrains q.line p.line && optConstrains q.end_line p.end_line &&
  optConstrains q.length p.length

/-- A relationship-pattern property map matches a stored one when every
mentioned key has exactly the given value. -/
def relPropsMatch (q p : RelProps) : Bool :=
  optConstrains q.color p.color && optConstrains q.line p.line &&
  optConstrains q.args p.args && optConstrains q.method p.method

/-- Does a node match a pattern `(:L1:L2 {props})`? -/
def nodeMatches (labels : List String) (q : NodeProps) (n : Node) : Bool :=
  labels.all (fun ℓ => n.labels.contains ℓ) && nodePropsMatch q n.props

/-- `MATCH (n:L1:L2 {props})`: all matching nodes, in store order. -/
def Graph.matchNodes (g : Graph) (labels : List String) (q : NodeProps) : List Node :=
  g.nodes.filter (nodeMatches labels q)

/-- Look a node up by its id. -/
def Graph.nodeById (g : Graph) (i : Nat) : Option Node :=
  g.nodes.find? (fun n => n.id == i)

/-- `MERGE (n:L1:L2 {props})`: if any node matches, bind all matches;
otherwise create one node with exactly the given labels and properties.
Returns the updated graph and the bound node ids. -/
def Graph.mergeNodes (g : Graph) (labels : List String) (q : NodeProps) :
    Graph × List Nat :=
  let matched := g.matchNodes labels q
  if matched.isEmpty then
    let n : Node := { id := g.nextId, labels := labels, props := q }
    ({ g with nodes := g.nodes ++ [n], nextId := g.nextId + 1 }, [n.id])
  else
    (g, matched.map (·.id))

/-- `MERGE (a)-[:T {props}]->(b)` for already-bound endpoints: create the
relationship unless one with the same endpoints, type and matching
properties already exists. -/
def Graph.mergeRel (g : Graph) (src dst : Nat) (rtype : String) (q : RelProps) :
    Graph :=
  if g.rels.any (fun r =>
      r.src == src && r.dst == dst && r.rtype == rtype && relPropsMatch q r.props)
  then g
  else
    { g with
      rels := g.rels ++ [{ rid := g.nextRid, src := src, dst := dst,
                           rtype := rtype, props := q }],
      nextRid := g.nextRid + 1 }

/-- Merge one relationship for every pair of bound endpoint ids (the cartesian
row semantics of `MATCH ... MATCH ... MERGE`). -/
def Graph.mergeRelPairs (g : Graph) (srcs dsts : List Nat) (rtype : String)
    (q : RelProps) : Graph :=
  srcs.foldl (fun g s => dsts.foldl (fun g d => g.mergeRel s d rtype q) g) g

/-- Delete the relationships whose ids appear in `rids` (`DELETE r`). -/
def Graph.deleteRels (g : Graph) (rids : List Nat) : Graph :=
  { g with rels := g.rels.filter (fun r => !(rids.contains r.rid)) }

/-! ## Source classifier (`codescan_lib/utils.py`)

String manipulation is carried out over `List Char` so that every function
evaluates inside the kernel; `pySplitSlash`, `pyReplaceBackslash` and the
`normpath` model mirror `str.split`, `str.replace` and `posixpath.normpath`. -/

/-- Python `s.split(sep)` for a one-character separator (always returns at
least one piece). -/
def splitOnCharList (sep : Char) : List Char → List (List Char)
  | [] => [[]]
  | c :: cs =>
    let r := splitOnCharList sep cs
    if c = sep then [] :: r
    else
      match r with
      | h :: t => (c :: h) :: t
      | [] => [[c]]

/-- `path.split("/")` returning strings. -/
def pySplitSlash (s : String) : List String :=
  (splitOnCharList '/' s.toList).map (fun l => String.mk l)

/-- `"/".join(parts)`. -/
def joinSlash (parts : List String) : String :=
  String.intercalate "/" parts

/-- Python `s.replace("\\", "/")` (a one-character-to-one-character map). -/
def pyReplaceBackslash (s : String) : String :=
  String.mk (s.toList.map (fun c => if c = '\\' then '/' else c))

/-- Python `s.startswith(p)`. -/
def pyStartsWith (s p : String) : Bool :=
  p.toList.isPrefixOf s.toList

/-- Python `s.endswith(p)`. -/
def pyEndsWith (s p : String) : Bool :=
  p.toList.reverse.isPrefixOf s.toList.reverse

/-- Python `sub in s` (substring containment). -/
def pyContains (s sub : String) : Bool :=
  go s.toList sub.toList
where
  go : List Char → List Char → Bool
    | _, [] => true
    | [], _ :: _ => false
    | c :: cs, sub => sub.isPrefixOf (c :: cs) || go cs sub

/-- Python `s.rstrip("/")`. -/
def pyRstripSlash (s : String) : String :=
  String.mk (s.toList.reverse.dropWhile (fun c => c = '/')).reverse

/-- Models `os.path.normpath` on POSIX (pure string manipulation: drop empty
and `.` components, resolve `..` against preceding components, keep the
leading-slash count of 1 or 2). -/
def normpath (path : String) : String :=
  if path = "" then "." else
  let initialSlashes : Nat :=
    if pyStartsWith path "/" then
      if pyStartsWith path "//" && !(pyStartsWith path "///") then 2 else 1
    else 0
  let comps := pySplitSlash path
  let newComps := comps.foldl
    (fun acc comp =>
      if comp = "" || comp = "." then acc
      else if comp ≠ ".." || (initialSlashes = 0 && acc = []) ||
              (acc ≠ [] && acc.getLast? = some "..") then acc ++ [comp]
      else if acc ≠ [] then acc.dropLast
      else acc)
    ([] : List String)
  let joined := String.mk (List.replicate initialSlashes '/') ++ joinSlash newComps
  if joined = "" then "." else joined

/-- `os.path.basename` on POSIX: everything after the final slash. -/
def pyBasename (path : String) : String :=
  (pySplitSlash path).getLastD ""

/-- Models `fnmatch.fnmatch` for the glob constructs exercised by the test
patterns of this repository: `*` (any run) and `?` (any one character);
all remaining characters match literally.  (POSIX `os.path.normcase` is the
identity, and the configured patterns use no character classes.)  The `fuel`
argument only drives structural recursion: every recursive call shrinks
`ps.length + cs.length`, so `globMatch` below always supplies enough. -/
def globMatchFuel : Nat → List Char → List Char → Bool
  | 0, _, _ => false
  | fuel + 1, ps, cs =>
    match ps, cs with
    | [], [] => true
    | [], _ :: _ => false
    | '*' :: ps, [] => globMatchFuel fuel ps []
    | '*' :: ps, c :: cs =>
      globMatchFuel fuel ps (c :: cs) || globMatchFuel fuel ('*' :: ps) cs
    | '?' :: ps, _ :: cs => globMatchFuel fuel ps cs
    | '?' :: _, [] => false
    | p :: ps, c :: cs => p == c && globMatchFuel fuel ps cs
    | _ :: _, [] => false

/-- Glob matching with adequate fuel. -/
def globMatch (ps cs : List Char) : Bool :=
  globMatchFuel (ps.length + cs.length + 1) ps cs

/-- `fnmatch.fnmatch(filename, pattern)`. -/
def fnmatch (filename pat : String) : Bool :=
  globMatch pat.toList filename.toList

/-- Default `TEST_DIR_PATTERNS` (constants.py line 16, at its in-source
default `"tests/,test/,testing/"`). -/
def TEST_DIR_PATTERNS : List String := ["tests/", "test/", "testing/"]

/-- Default `TEST_FILE_PATTERNS` (constants.py line 17, at its in-source
default `"test_*.py,*_test.py"`). -/
def TEST_FILE_PATTERNS : List String := ["test_*.py", "*_test.py"]

/-- Default `TEST_FUNCTION_PREFIXES` (constants.py line 18, at its in-source
default `"test_"`). -/
def TEST_FUNCTION_PREFIXES : List String := ["test_"]

/-- The `custom_patterns` dictionary accepted by `is_test_file` and
`process_test_relationships`; a `none` field models an absent key. -/
structure CustomPatterns where
  test_dirs : Option (List String) := none
  test_files : Option (List String) := none
  test_funcs : Option (List String) := none
deriving DecidableEq, Repr

/-- Embeds `is_example_file` (utils.py lines 18-31). -/
def is_example_file (file_path : String) : Bool :=
  let normalized_path := pyReplaceBackslash (normpath file_path)
  let path_parts := pySplitSlash normalized_path
  pyContains normalized_path "/examples/" ||
  pyContains normalized_path "examples/" ||
  path_parts.any (fun part => part == "examples")

/-- Embeds `is_test_file` (utils.py lines 33-72). -/
def is_test_file (file_path : String) (custom_patterns : Option CustomPatterns) :
    Bool :=
  if is_example_file file_path then false else
  let dir_patterns :=
    match custom_patterns with
    | some cp => match cp.test_dirs with
      | some l => l
      | none => TEST_DIR_PATTERNS
    | none => TEST_DIR_PATTERNS
  let file_patterns :=
    match custom_patterns with
    | some cp => match cp.test_files with
      | some l => l
      | none => TEST_FILE_PATTERNS
    | none => TEST_FILE_PATTERNS
  let normalized_path := pyReplaceBackslash (normpath file_path)
  let path_parts := pySplitSlash normalized_path
  if pyContains normalized_path "/spec/example_spec.py" then true
  else if path_parts.any (fun part =>
      dir_patterns.any (fun pat => part == pyRstripSlash pat)) then true
  else if file_patterns.any (fun pat => fnmatch (pyBasename file_path) pat) then true
  else false

/-! ## Entity extractor / graph builder (`codescan_lib/analyzer.py`)

`CodeAnalyzer` is embedded as a recursion over `Ast`.  The fields of the
analyzer object that are fixed at construction (`file_path`, `is_test_file`,
`is_example_file`) form `FileCtx`; the mutable traversal fields
(`current_class`, `current_function`, `current_scope`) together with the
database session form `MutState`.  Edge colors are the literal constants of
the source. -/

/-- Environment-derived configuration: `BUILTIN_FUNCTIONS = set(dir(builtins))`
(constants.py line 25) and the set of module names `is_stdlib_module`
(utils.py lines 6-16) detects on the running interpreter. -/
structure AnalyzerConfig where
  builtins : List String
  stdlib_modules : List String
deriving DecidableEq, Repr

/-- `is_stdlib_module` (utils.py lines 6-16): membership in the
environment-derived standard-library module set. -/
def is_stdlib_module (cfg : AnalyzerConfig) (module_name : String) : Bool :=
  cfg.stdlib_modules.contains module_name

/-- The constructor-time fields of `CodeAnalyzer` (analyzer.py lines 7-14);
`is_example_file` is computed by `CodeAnalyzer._is_example_file`, a documented
duplicate of `utils.is_example_file`. -/
structure FileCtx where
  file_path : String
  is_test_file : Bool
  is_example_file : Bool
deriving DecidableEq, Repr

/-- The mutable traversal state of `CodeAnalyzer` plus the database it
writes through `session.run`. -/
structure MutState where
  current_class : Option String := none
  current_function : Option String := none
  current_scope : String := "module"
  graph : Graph := {}
deriving DecidableEq, Repr

def edgeOrange : String := "#FF9800"
def edgePurple : String := "#9C27B0"
def edgePink : String := "#E91E63"
def edgeGreen : String := "#4CAF50"
def edgeIndigo : String := "#3F51B5"

/-- Plain list view of an `AstList`. -/
def AstList.toList : AstList → List Ast
  | .nil => []
  | .cons a l => a :: AstList.toList l

/-- The callee-name / receiver-module extraction of `visit_Call`
(analyzer.py lines 367-374). -/
def calledFuncModule : Ast → Option String × Option String
  | .nameE i => (some i, none)
  | .attributeE v attr =>
    (some attr, match v with
      | .nameE m => some m
      | _ => none)
  | _ => (none, none)

/-- Argument serialization of `visit_Call` (analyzer.py lines 377-385),
elementwise. -/
def argName : Ast → String
  | .nameE i => i
  | .constE v => pyRepr v
  | a => astDump a

/-- The dunder check of `visit_FunctionDef` (analyzer.py line 84). -/
def isDunderName (s : String) : Bool :=
  pyStartsWith s "__" && pyEndsWith s "__"

/-- The label string chosen by `visit_FunctionDef` (analyzer.py lines
117-128), as a label list. -/
def functionLabels (ctx : FileCtx) (function_name : String) (hasClass : Bool) :
    List String :=
  (if ctx.is_test_file then ["Function", "Test", "TestFunction"]
   else if ctx.is_example_file then ["Function", "Example", "ExampleFunction"]
   else ["Function"]) ++
  (if function_name == "main" then ["MainFunction"] else []) ++
  (if hasClass then ["ClassFunction"] else [])

/-- The reference-redirect statement of `visit_FunctionDef` (analyzer.py lines
160-174): for every placeholder with the simple name, every concrete node with
the qualified name in this file, and every inbound CALLS relationship of the
placeholder, merge a CALLS relationship from the caller to the concrete node
and delete the matched relationship.  The placeholder node itself is not
deleted by this statement. -/
def redirectCalls (g : Graph) (simple_name full_name file : String) : Graph :=
  let refs := g.matchNodes ["Function"]
    { name := some simple_name, is_reference := some true }
  let defined := g.matchNodes ["Function"]
    { name := some full_name, file := some file, is_reference := some false }
  let rows := refs.flatMap (fun ref =>
    defined.flatMap (fun d =>
      (g.rels.filter (fun r => r.rtype == "CALLS" && r.dst == ref.id)).map
        (fun r => (r, d))))
  let g1 := rows.foldl
    (fun g rd => g.mergeRel rd.1.src rd.2.id "CALLS" { color := some edgeOrange })
    g
  g1.deleteRels (rows.map (fun rd => rd.1.rid))

/-- The database effects of `visit_FunctionDef` (analyzer.py lines 130-187):
reference check, node merge, conditional redirect, conditional class
containment. -/
def functionDefUpdateGraph (ctx : FileCtx) (g : Graph)
    (function_name full_name : String) (line_num end_line_num fnLength : Int)
    (current_class : Option String) : Graph :=
  let labels := functionLabels ctx function_name current_class.isSome
  let result := g.matchNodes labels
    { name := some function_name, is_reference := some true }
  let g1 := (g.mergeNodes labels
    { name := some full_name, file := some ctx.file_path,
      is_reference := some false, line := some line_num,
      end_line := some end_line_num, length := some fnLength }).1
  let g2 :=
    if !result.isEmpty then redirectCalls g1 function_name full_name ctx.file_path
    else g1
  match current_class with
  | some cls =>
    let cs := g2.matchNodes ["Class"]
      { name := some cls, file := some ctx.file_path }
    let fs := g2.matchNodes ["Function"]
      { name := some full_name, file := some ctx.file_path }
    g2.mergeRelPairs (cs.map (·.id)) (fs.map (·.id)) "CONTAINS"
      { color := some edgePurple }
  | none => g2

/-- The class-node merge of `visit_ClassDef` (analyzer.py lines 49-73). -/
def classDefUpdateGraph (ctx : FileCtx) (g : Graph) (class_name : String)
    (line_num end_line_num : Int) : Graph :=
  let labels :=
    if ctx.is_test_file then ["Class", "Test", "TestClass"]
    else if ctx.is_example_file then ["Class", "Example", "ExampleClass"]
    else ["Class"]
  (g.mergeNodes labels
    { name := some class_name, file := some ctx.file_path,
      line := some line_num, end_line := some end_line_num }).1

/-- `CodeAnalyzer._create_constant_node` (analyzer.py lines 291-359). -/
def _create_constant_node (ctx : FileCtx) (g : Graph)
    (name value value_type : String) (line_num end_line_num : Int)
    (container_type : String) (container_name : Option String) : Graph :=
  let g := (g.mergeNodes ["Constant"]
    { name := some name, value := some value, ctype := some value_type,
      file := some ctx.file_path, line := some line_num,
      end_line := some end_line_num, scope := some container_type }).1
  if container_type == "module" then g
  else if container_type == "class" then
    match container_name with
    | some cn =>
      let consts := g.matchNodes ["Constant"]
        { name := some name, file := some ctx.file_path, line := some line_num }
      let classes := g.matchNodes ["Class"]
        { name := some cn, file := some ctx.file_path }
      g.mergeRelPairs (classes.map (·.id)) (consts.map (·.id)) "DEFINES"
        { color := some edgePink }
    | none => g
  else if container_type == "function" then
    match container_name with
    | some fn =>
      let consts := g.matchNodes ["Constant"]
        { name := some name, file := some ctx.file_path, line := some line_num }
      let fns := g.matchNodes ["Function"]
        { name := some fn, file := some ctx.file_path }
      g.mergeRelPairs (fns.map (·.id)) (consts.map (·.id)) "DEFINES"
        { color := some edgePink }
    | none => g
  else g

/-- Python `str.isupper` restricted to ASCII: at least one cased character
and no lowercase one. -/
def pyIsUpper (s : String) : Bool :=
  s.toList.any (fun c => c.isAlpha) && s.toList.all (fun c => !c.isLower)

/-- The constant-naming convention test of `visit_Assign`
(analyzer.py line 211). -/
def isConstantName (name : String) : Bool :=
  pyIsUpper name && name.toList.contains '_' && name.length > 1

/-- The per-target constant extraction loop of `visit_Assign` (analyzer.py
lines 204-236): only plain `Name` targets with constant-style names produce
Constant nodes. -/
def assignConstants (ctx : FileCtx) (g : Graph) (targets : AstList)
    (value : Ast) (line_num end_line_num : Int)
    (current_scope : String) (current_class current_function : Option String) :
    Graph :=
  (AstList.toList targets).foldl
    (fun g t =>
      match t with
      | .nameE name =>
        if isConstantName name then
          let (v, value_type) := extractConstantValue value
          let container_type := current_scope
          let container_name : Option String :=
            if container_type == "class" then current_class
            else if container_type == "function" then current_function
            else none
          _create_constant_node ctx g name v value_type line_num end_line_num
            container_type container_name
        else g
      | _ => g)
    g

/-- The database effects of `visit_Call` once the builtin / stdlib early
returns have not fired (analyzer.py lines 404-456). -/
def visitCallUpdateGraph (ctx : FileCtx) (g : Graph)
    (called_func : Option String) (current_function : Option String)
    (line_num : Int) (args_str : String) : Graph :=
  match called_func, current_function with
  | some called, some caller =>
    let result := g.matchNodes ["Function"] { name := some called }
    let knownFile : Option String :=
      match result with
      | [] => none
      | r0 :: _ => r0.props.file
    match knownFile with
    | some known_file =>
      let calledNodes := g.matchNodes ["Function"]
        { name := some called, file := some known_file }
      let callers := g.matchNodes ["Function"]
        { name := some caller, file := some ctx.file_path }
      g.mergeRelPairs (callers.map (·.id)) (calledNodes.map (·.id)) "CALLS"
        { color := some edgeOrange, line := some line_num, args := some args_str }
    | none =>
      let merged := g.mergeNodes ["Function", "ReferenceFunction"]
        { name := some called, is_reference := some true,
          file := some ctx.file_path, line := some line_num,
          end_line := some (-1), length := some 0 }
      let callers := merged.1.matchNodes ["Function"]
        { name := some caller, file := some ctx.file_path }
      merged.1.mergeRelPairs (callers.map (·.id)) merged.2 "CALLS"
        { line := some line_num, args := some args_str }
  | _, _ => g

/-- `CodeAnalyzer.visit_Import` (analyzer.py lines 460-485); the `Import` node
is merged for test files and the `IMPORTS` relationship is attached to the
function currently being visited — when `current_function` is `None` the
`MATCH (f:Function {name: null, ...})` clause matches nothing, so the Import
node is left without an inbound IMPORTS relationship. -/
def visit_Import (ctx : FileCtx) (st : MutState)
    (names : List (String × Option String)) : MutState :=
  let g := names.foldl
    (fun g nmAs =>
      let imported_name := nmAs.1
      let alias_name := nmAs.2.getD imported_name
      if ctx.is_test_file then
        let merged := g.mergeNodes ["Import"]
          { name := some imported_name, aliasName := some alias_name,
            file := some ctx.file_path }
        let fs :=
          match st.current_function with
          | some fn => merged.1.matchNodes ["Function"]
              { name := some fn, file := some ctx.file_path }
          | none => []
        merged.1.mergeRelPairs (fs.map (·.id)) merged.2 "IMPORTS"
          { color := some edgeGreen }
      else g)
    st.graph
  { st with graph := g }

/-- `CodeAnalyzer.visit_ImportFrom` (analyzer.py lines 487-514); the merged
`Import` node's `name` property is the imported simple name (not the
dotted `full_import`). -/
def visit_ImportFrom (ctx : FileCtx) (st : MutState) (module : String)
    (names : List (String × Option String)) : MutState :=
  let g := names.foldl
    (fun g nmAs =>
      let imported_name := nmAs.1
      let alias_name := nmAs.2.getD imported_name
      if ctx.is_test_file then
        let merged := g.mergeNodes ["Import"]
          { name := some imported_name, modName := some module,
            aliasName := some alias_name, file := some ctx.file_path }
        let fs :=
          match st.current_function with
          | some fn => merged.1.matchNodes ["Function"]
              { name := some fn, file := some ctx.file_path }
          | none => []
        merged.1.mergeRelPairs (fs.map (·.id)) merged.2 "IMPORTS"
          { color := some edgeGreen }
      else g)
    st.graph
  { st with graph := g }

mutual
/-- `ast.NodeVisitor.visit` dispatch for `CodeAnalyzer`: nodes with a
`visit_X` method run that method (whose scope bookkeeping and early returns
are spelled out in the corresponding match arm, with the database work in the
named helper above); all other nodes fall through to `generic_visit`, which
visits the children in field order. -/
def visitNode (cfg : AnalyzerConfig) (ctx : FileCtx) (st : MutState) :
    Ast → MutState
  -- CodeAnalyzer.visit_FunctionDef (analyzer.py lines 80-191)
  | .functionDef function_name line_num end_line_num body =>
    if isDunderName function_name then st
    else
      let fnLength : Int :=
        if line_num ≥ 0 && end_line_num ≥ 0 then end_line_num - line_num + 1
        else 0
      let full_name :=
        match st.current_class with
        | some c => c ++ "." ++ function_name
        | none => function_name
      let st1 := { st with current_function := some full_name }
      let previous_scope := st1.current_scope
      let st2 := { st1 with current_scope := "function" }
      let g := functionDefUpdateGraph ctx st2.graph function_name full_name
        line_num end_line_num fnLength st2.current_class
      let st3 := visitAstList cfg ctx { st2 with graph := g } body
      { st3 with current_function := none, current_scope := previous_scope }
  -- CodeAnalyzer.visit_ClassDef (analyzer.py lines 30-78)
  | .classDef class_name line_num end_line_num body =>
    let st1 := { st with current_class := some class_name }
    let previous_scope := st1.current_scope
    let st2 := { st1 with current_scope := "class" }
    let g := classDefUpdateGraph ctx st2.graph class_name line_num end_line_num
    let st3 := visitAstList cfg ctx { st2 with graph := g } body
    { st3 with current_class := none, current_scope := previous_scope }
  -- CodeAnalyzer.visit_Assign (analyzer.py lines 193-238)
  | .assign targets value line_num end_line_num =>
    if ctx.is_test_file then
      let st1 := visitAstList cfg ctx st targets
      visitNode cfg ctx st1 value
    else
      let g := assignConstants ctx st.graph targets value line_num end_line_num
        st.current_scope st.current_class st.current_function
      let st1 := visitAstList cfg ctx { st with graph := g } targets
      visitNode cfg ctx st1 value
  -- CodeAnalyzer.visit_Call (analyzer.py lines 361-458)
  | .call func args line_num =>
    let cm := calledFuncModule func
    let called_func := cm.1
    let module_name := cm.2
    let args_str := joinComma ((AstList.toList args).map argName)
    if (match called_func with
        | some c => cfg.builtins.contains c
        | none => false) then st
    else if (match module_name with
        | some m => is_stdlib_module cfg m
        | none => false) then st
    else
      let g := visitCallUpdateGraph ctx st.graph called_func
        st.current_function line_num args_str
      let st1 := visitNode cfg ctx { st with graph := g } func
      visitAstList cfg ctx st1 args
  -- CodeAnalyzer.visit_Import (analyzer.py lines 460-485)
  | .importS names => visit_Import ctx st names
  -- CodeAnalyzer.visit_ImportFrom (analyzer.py lines 487-514)
  | .importFromS module names => visit_ImportFrom ctx st module names
  -- generic_visit for the remaining node kinds
  | .attributeE v _ => visitNode cfg ctx st v
  | .nameE _ => st
  | .constE _ => st
  | .listE elts => visitAstList cfg ctx st elts
  | .dictE keys values =>
    let st1 := visitOptKeys cfg ctx st keys
    visitAstList cfg ctx st1 values
  | .tupleE elts => visitAstList cfg ctx st elts
  | .setE elts => visitAstList cfg ctx st elts
  | .usubE o => visitNode cfg ctx st o
  | .uopOtherE o => visitNode cfg ctx st o
  | .exprStmt v => visitNode cfg ctx st v
  | .passS => st

/-- Child traversal over a node list, left to right. -/
def visitAstList (cfg : AnalyzerConfig) (ctx : FileCtx) (st : MutState) :
    AstList → MutState
  | .nil => st
  | .cons a l => visitAstList cfg ctx (visitNode cfg ctx st a) l

/-- Child traversal over `ast.Dict.keys` (`None` entries are not nodes and
are skipped by `generic_visit`). -/
def visitOptKeys (cfg : AnalyzerConfig) (ctx : FileCtx) (st : MutState) :
    AstOptList → MutState
  | .nil => st
  | .consNone l => visitOptKeys cfg ctx st l
  | .consSome a l => visitOptKeys cfg ctx (visitNode cfg ctx st a) l
end

/-- `CodeAnalyzer.process_test_relationships` (analyzer.py lines 516-556):
the three coverage heuristics, each a global Cypher statement merging `TESTS`
relationships tagged `naming_pattern`, `import` and `call` respectively. -/
def process_test_relationships (is_test : Bool)
    (custom_patterns : Option CustomPatterns) (g : Graph) : Graph :=
  if !is_test then g else
  let function_prefixes :=
    match custom_patterns with
    | some cp => match cp.test_funcs with
      | some l => l
      | none => TEST_FUNCTION_PREFIXES
    | none => TEST_FUNCTION_PREFIXES
  -- naming-pattern pass (lines 531-540)
  let g1 := function_prefixes.foldl
    (fun g pfx =>
      let rows := (g.nodes.filter (fun t => t.labels.contains "TestFunction")).flatMap
        (fun test =>
          match test.props.name with
          | some nm =>
            if pyStartsWith nm pfx then
              let tested_name := String.mk (nm.toList.drop pfx.length)
              (g.nodes.filter (fun p =>
                p.labels.contains "Function" && !(p.labels.contains "TestFunction") &&
                p.props.name == some tested_name)).map (fun p => (test, p))
            else []
          | none => [])
      rows.foldl
        (fun g tp => g.mergeRel tp.1.id tp.2.id "TESTS"
          { method := some "naming_pattern", color := some edgeIndigo })
        g)
    g
  -- import pass (lines 543-548)
  let importRows := (g1.rels.filter (fun r => r.rtype == "IMPORTS")).flatMap
    (fun e =>
      match g1.nodeById e.src, g1.nodeById e.dst with
      | some test, some i =>
        if test.labels.contains "TestFunction" && i.labels.contains "Import" then
          (g1.nodes.filter (fun p =>
            p.labels.contains "Function" && !(p.labels.contains "TestFunction") &&
            (match i.props.name with
             | some v => p.props.name == some v
             | none => false))).map (fun p => (test, p))
        else []
      | _, _ => [])
  let g2 := importRows.foldl
    (fun g tp => g.mergeRel tp.1.id tp.2.id "TESTS"
      { method := some "import", color := some edgeIndigo })
    g1
  -- call pass (lines 551-555)
  let callRows := (g2.rels.filter (fun r => r.rtype == "CALLS")).flatMap
    (fun e =>
      match g2.nodeById e.src, g2.nodeById e.dst with
      | some test, some prod =>
        if test.labels.contains "TestFunction" && prod.labels.contains "Function" &&
           !(prod.labels.contains "TestFunction") then [(test, prod)]
        else []
      | _, _ => [])
  callRows.foldl
    (fun g tp => g.mergeRel tp.1.id tp.2.id "TESTS"
      { method := some "call", color := some edgeIndigo })
    g2

/-- `analyze_file` (analysis.py lines 11-57) for one already-parsed tree:
classify, walk the tree with `CodeAnalyzer`, then run the test linker when the
unit is Test-classified.  File-system and parser concerns (project-membership
check, relative-path computation, `SyntaxError` / `UnicodeDecodeError`
skipping) live outside the tree-walking core embedded here. -/
def analyze_file (cfg : AnalyzerConfig) (custom_patterns : Option CustomPatterns)
    (g : Graph) (rel_path : String) (tree : AstList) : Graph :=
  let is_test_flag := is_test_file rel_path custom_patterns
  let ctx : FileCtx :=
    { file_path := rel_path, is_test_file := is_test_flag,
      is_example_file := is_example_file rel_path }
  let st := visitAstList cfg ctx
    { current_class := none, current_function := none,
      current_scope := "module", graph := g } tree
  if is_test_flag then process_test_relationships is_test_flag custom_patterns st.graph
  else st.graph

/-! ## Graph query engine (`codescan_lib/mcp_tools/`)

The store handle is `Option Graph`: `none` models the unavailable store (the
module-level `driver` being `None` in `base.py`, or a session call raising,
e.g. `neo4j.exceptions.ServiceUnavailable`).  The helper `q` (base.py lines
120-138) returns `[]` both when `driver is None` and when `session.run`
raises; `get_db_session` (base.py lines 140-161) installs no handler, so a
raising store call propagates to the caller of any tool built on it. -/

/-- The `q` helper of `base.py` (lines 120-138): empty list on missing driver
or on a raising store call, query rows otherwise. -/
def q {ρ : Type} (store : Option Graph) (query : Graph → List ρ) : List ρ :=
  match store with
  | none => []
  | some g => query g

/-- Run a query through `get_db_session` (base.py lines 140-161): no handler,
so an unavailable store surfaces as a raised exception (`Except.error`). -/
def runDbSession {ρ : Type} (store : Option Graph) (query : Graph → ρ) :
    Except String ρ :=
  match store with
  | none => Except.error "ServiceUnavailable"
  | some g => Except.ok (query g)

/-- Ascending comparison on possibly-null strings; Neo4j sorts nulls last in
ascending order. -/
def optStrLe (a b : Option String) : Bool :=
  match a, b with
  | none, none => true
  | none, some _ => false
  | some _, none => true
  | some x, some y => decide (x ≤ y)

/-- Ascending comparison on possibly-null integers, nulls last. -/
def optIntLe (a b : Option Int) : Bool :=
  match a, b with
  | none, none => true
  | none, some _ => false
  | some _, none => true
  | some x, some y => decide (x ≤ y)

/-- A `(name, file, line, end_line)` result row of the function-listing
queries. -/
structure FnRow where
  name : Option String
  file : Option String
  line : Option Int
  end_line : Option Int
deriving DecidableEq, Repr

/-- `ORDER BY f.file, f.line` on `FnRow`s. -/
def fnRowLe (a b : FnRow) : Bool :=
  if a.file = b.file then optIntLe a.line b.line else optStrLe a.file b.file

/-- Query body of `callees` (call_graph.py lines 11-24). -/
def callees_rows (g : Graph) (fn : String) : List (Option String × Option String) :=
  g.rels.filterMap (fun r =>
    if r.rtype == "CALLS" then
      match g.nodeById r.src, g.nodeById r.dst with
      | some caller, some callee =>
        if caller.labels.contains "Function" && caller.props.name == some fn &&
           callee.labels.contains "Function" then
          some (callee.props.name, caller.props.file)
        else none
      | _, _ => none
    else none)

/-- `callees` tool (call_graph.py lines 11-24). -/
def callees (store : Option Graph) (fn : String) :
    List (Option String × Option String) :=
  q store (fun g => callees_rows g fn)

/-- Query body of `callers` (call_graph.py lines 27-40). -/
def callers_rows (g : Graph) (fn : String) : List (Option String × Option String) :=
  g.rels.filterMap (fun r =>
    if r.rtype == "CALLS" then
      match g.nodeById r.src, g.nodeById r.dst with
      | some caller, some callee =>
        if caller.labels.contains "Function" && callee.labels.contains "Function" &&
           callee.props.name == some fn then
          some (caller.props.name, caller.props.file)
        else none
      | _, _ => none
    else none)

/-- `callers` tool (call_graph.py lines 27-40). -/
def callers (store : Option Graph) (fn : String) :
    List (Option String × Option String) :=
  q store (fun g => callers_rows g fn)

/-- `coalesce(f.is_reference, false)`. -/
def coalesceIsRef (n : Node) : Bool :=
  (n.props.is_reference).getD false

/-- Query body of `uncalled_functions` (call_graph.py lines 56-71): concrete
functions with no inbound CALLS relationship from a Function node. -/
def uncalled_functions_rows (g : Graph) : List FnRow :=
  let hits := g.nodes.filter (fun f =>
    f.labels.contains "Function" && coalesceIsRef f == false &&
    !(g.rels.any (fun r =>
      r.rtype == "CALLS" && r.dst == f.id &&
      (match g.nodeById r.src with
       | some s => s.labels.contains "Function"
       | none => false))))
  (hits.map (fun f =>
    { name := f.props.name, file := f.props.file, line := f.props.line,
      end_line := f.props.end_line })).mergeSort fnRowLe

/-- `uncalled_functions` tool (call_graph.py lines 56-71). -/
def uncalled_functions (store : Option Graph) : List FnRow :=
  q store uncalled_functions_rows

/-- Query body of `recursive_functions` (call_graph.py lines 118-131):
functions with a CALLS relationship onto themselves. -/
def recursive_functions_rows (g : Graph) : List FnRow :=
  let hits := g.nodes.filter (fun f =>
    f.labels.contains "Function" && coalesceIsRef f == false &&
    g.rels.any (fun r => r.rtype == "CALLS" && r.src == f.id && r.dst == f.id))
  (hits.map (fun f =>
    { name := f.props.name, file := f.props.file, line := f.props.line,
      end_line := none })).mergeSort fnRowLe

/-- `recursive_functions` tool (call_graph.py lines 118-131). -/
def recursive_functions (store : Option Graph) : List FnRow :=
  q store recursive_functions_rows

/-! ### `transitive_calls` (call_graph.py lines 174-197) -/

/-- One result row of `transitive_calls`: the node names along the path, the
path length, and the file of every node on the path. -/
structure PathRow where
  function_names : List (Option String)
  path_length : Nat
  function_files : List (Option String)
deriving DecidableEq, Repr

/-- Does relationship `r` land on a `Function` node named `target_fn`? -/
def targetHit (g : Graph) (target_fn : String) (r : Rel) : Bool :=
  match g.nodeById r.dst with
  | some n => n.labels.contains "Function" && n.props.name == some target_fn
  | none => false

/-- All CALLS-relationship chains from node `cur` that end on a `Function`
node named `target_fn`, of length `1..fuel`, never repeating a relationship
(Cypher's relationship-uniqueness rule for variable-length patterns);
`used` carries the relationship ids already on the path. -/
def pathsToTarget (g : Graph) (target_fn : String) :
    Nat → Nat → List Nat → List (List Rel)
  | 0, _, _ => []
  | fuel + 1, cur, used =>
    (g.rels.filter (fun r =>
      r.rtype == "CALLS" && r.src == cur && !(used.contains r.rid))).flatMap
      (fun r =>
        (if targetHit g target_fn r then [[r]] else []) ++
        (pathsToTarget g target_fn fuel r.dst (r.rid :: used)).map (fun p => r :: p))

/-- All matched `(source id, relationship chain)` pairs of the pattern
`(source:Function {name: $source_fn})-[:CALLS*1..fuel]->(target:Function
{name: $target_fn})`. -/
def matchedPaths (g : Graph) (source_fn target_fn : String) (fuel : Nat) :
    List (Nat × List Rel) :=
  (g.matchNodes ["Function"] { name := some source_fn }).flatMap
    (fun src => (pathsToTarget g target_fn fuel src.id []).map (fun p => (src.id, p)))

/-- The node ids along a path: the source followed by each relationship's
destination. -/
def pathNodeIds (src : Nat) (p : List Rel) : List Nat :=
  src :: p.map (·.dst)

/-- The `RETURN` row of `transitive_calls` for one path. -/
def mkPathRow (g : Graph) (src : Nat) (p : List Rel) : PathRow :=
  { function_names := (pathNodeIds src p).map (fun i => (g.nodeById i).bind (·.props.name)),
    path_length := p.length,
    function_files := (pathNodeIds src p).map (fun i => (g.nodeById i).bind (·.props.file)) }

/-- Row order `ORDER BY path_length`. -/
def pathRowLe (a b : PathRow) : Bool :=
  decide (a.path_length ≤ b.path_length)

/-- Query body of `transitive_calls` (call_graph.py lines 174-197): paths of
length `1..max_depth` (the `%d` of the pattern and the `WHERE length(path) <=
$max_depth` clause carry the same value), shortest first, `LIMIT 10`. -/
def transitive_calls_rows (g : Graph) (source_fn target_fn : String)
    (max_depth : Nat) : List PathRow :=
  let paths := (matchedPaths g source_fn target_fn max_depth).filter
    (fun sp => sp.2.length ≤ max_depth)
  let rows := paths.map (fun sp => mkPathRow g sp.1 sp.2)
  (rows.mergeSort pathRowLe).take 10

/-- `transitive_calls` tool (call_graph.py lines 174-197). -/
def transitive_calls (store : Option Graph) (source_fn target_fn : String)
    (max_depth : Nat) : List PathRow :=
  q store (fun g => transitive_calls_rows g source_fn target_fn max_depth)

/-! ### `get_test_coverage_ratio` (test_tools.py lines 140-161) -/

/-- One result row of `get_test_coverage_ratio`; `ratioVal` models the
`coverage_ratio` column (`toFloat(tested_functions) / total_functions` is
modelled as exact rational division). -/
structure CoverageRow where
  total_functions : Nat
  tested_functions : Nat
  ratioVal : ℚ
deriving DecidableEq, Repr

/-- `MATCH (f:Function) WHERE NOT f:TestFunction`. -/
def nonTestFunctions (g : Graph) : List Node :=
  g.nodes.filter (fun f =>
    f.labels.contains "Function" && !(f.labels.contains "TestFunction"))

/-- `(:TestFunction)-[:TESTS]->(f)`. -/
def hasInboundTestEdge (g : Graph) (f : Node) : Bool :=
  g.rels.any (fun r =>
    r.rtype == "TESTS" && r.dst == f.id &&
    (match g.nodeById r.src with
     | some t => t.labels.contains "TestFunction"
     | none => false))

/-- Query body of `get_test_coverage_ratio` (test_tools.py lines 148-161),
following Cypher's row pipeline: the first `WITH count(f) AS total_functions`
aggregates without grouping keys and so always yields one row; the second
`WITH total_functions, count(f) AS tested_functions` aggregates **with**
`total_functions` as a grouping key, and a grouped aggregation over zero
rows yields zero rows — so whenever the second `MATCH` finds no tested
function there is no result row at all and the `CASE ... ELSE 0` expression
is never reached. -/
def get_test_coverage_ratio_rows (g : Graph) : List CoverageRow :=
  let total_functions := (nonTestFunctions g).length
  let tested := (nonTestFunctions g).filter (hasInboundTestEdge g)
  if tested.isEmpty then []
  else
    [{ total_functions := total_functions,
       tested_functions := tested.length,
       ratioVal :=
         if total_functions > 0 then (tested.length : ℚ) / (total_functions : ℚ)
         else 0 }]

/-- `get_test_coverage_ratio` tool (test_tools.py lines 140-161). -/
def get_test_coverage_ratio (store : Option Graph) : List CoverageRow :=
  q store get_test_coverage_ratio_rows

/-! ### Constant-duplication tools (constant_tools.py)

Both tools open their own session via `get_db_session` instead of going
through `q`, so a store failure propagates out of them. -/

/-- One result row of `repetitive_constants`. -/
structure RepConstRow where
  value : Option String
  ctype : Option String
  count : Nat
  occurrences : List (Option String × Option String × Option Int × Option String)
deriving DecidableEq, Repr

/-- One result row of `repetitive_constant_names`. -/
structure RepNameRow where
  name : Option String
  count : Nat
  occurrences :
    List (Option String × Option String × Option String × Option Int × Option String)
deriving DecidableEq, Repr

/-- The distinct values of a key function over a node list, in first-seen
order (the grouping keys of `WITH ... collect(...)`). -/
def groupKeys {κ : Type} [DecidableEq κ] (key : Node → κ) (l : List Node) :
    List κ :=
  l.foldl (fun acc c => if acc.contains (key c) then acc else acc ++ [key c]) []

/-- Descending-count row order (`ORDER BY count DESC`). -/
def repConstRowGe (a b : RepConstRow) : Bool :=
  decide (b.count ≤ a.count)

/-- Descending-count row order (`ORDER BY count DESC`). -/
def repNameRowGe (a b : RepNameRow) : Bool :=
  decide (b.count ≤ a.count)

/-- Query body of `repetitive_constants` (constant_tools.py lines 22-42):
group Constant nodes by value, keep groups of size > 1, report the first
member's type and every occurrence, most-repeated first, `LIMIT limit`. -/
def repetitive_constants_rows (g : Graph) (limit : Nat) : List RepConstRow :=
  let constants := g.nodes.filter (fun c => c.labels.contains "Constant")
  let groups := (groupKeys (·.props.value) constants).map
    (fun v => (v, constants.filter (fun c => c.props.value == v)))
  let rows := (groups.filter (fun vc => vc.2.length > 1)).map
    (fun vc =>
      { value := vc.1,
        ctype := (vc.2.head?).bind (·.props.ctype),
        count := vc.2.length,
        occurrences := vc.2.map (fun c =>
          (c.props.name, c.props.file, c.props.line, c.props.scope)) })
  (rows.mergeSort repConstRowGe).take limit

/-- `repetitive_constants` tool (constant_tools.py lines 10-42): built on
`get_db_session`, so a store failure propagates instead of yielding `[]`. -/
def repetitive_constants (store : Option Graph) (limit : Nat) :
    Except String (List RepConstRow) :=
  runDbSession store (fun g => repetitive_constants_rows g limit)

/-- Query body of `repetitive_constant_names` (constant_tools.py lines
57-75): the same grouping keyed by constant name. -/
def repetitive_constant_names_rows (g : Graph) (limit : Nat) : List RepNameRow :=
  let constants := g.nodes.filter (fun c => c.labels.contains "Constant")
  let groups := (groupKeys (·.props.name) constants).map
    (fun v => (v, constants.filter (fun c => c.props.name == v)))
  let rows := (groups.filter (fun vc => vc.2.length > 1)).map
    (fun vc =>
      { name := vc.1,
        count := vc.2.length,
        occurrences := vc.2.map (fun c =>
          (c.props.value, c.props.ctype, c.props.file, c.props.line, c.props.scope)) })
  (rows.mergeSort repNameRowGe).take limit

/-- `repetitive_constant_names` tool (constant_tools.py lines 44-77): built on
`get_db_session`, so a store failure propagates instead of yielding `[]`. -/
def repetitive_constant_names (store : Option Graph) (limit : Nat) :
    Except String (List RepNameRow) :=
  runDbSession store (fun g => repetitive_constant_names_rows g limit)

/-! ## Exception paths of the extractor scope tracking

For claim C4 the scope-relevant skeleton of `visit_FunctionDef` /
`visit_ClassDef` is embedded with the remaining body of the method — the
database statements followed by `generic_visit` — abstracted as `rest`, a
state transformer that also reports whether it raised; when it raises, the
returned state is the analyzer's state at the raise point, and the exception
propagates out of the visit method.  The source methods contain no
`try`/`finally`, so the restoring assignments after `generic_visit`
(analyzer.py lines 188-191 and 75-78) run only on the normal path. -/

/-- Scope skeleton of `CodeAnalyzer.visit_FunctionDef` (analyzer.py lines
80-191) under a possibly-raising `rest`. -/
def visit_FunctionDef_scope (st : MutState) (function_name : String)
    (rest : MutState → MutState × Bool) : MutState × Bool :=
  if isDunderName function_name then (st, false)
  else
    let full_name :=
      match st.current_class with
      | some c => c ++ "." ++ function_name
      | none => function_name
    let st1 := { st with current_function := some full_name }
    let previous_scope := st1.current_scope
    let st2 := { st1 with current_scope := "function" }
    let r := rest st2
    if r.2 then r
    else ({ r.1 with current_function := none, current_scope := previous_scope },
          false)

/-- Scope skeleton of `CodeAnalyzer.visit_ClassDef` (analyzer.py lines 30-78)
under a possibly-raising `rest`. -/
def visit_ClassDef_scope (st : MutState) (class_name : String)
    (rest : MutState → MutState × Bool) : MutState × Bool :=
  let st1 := { st with current_class := some class_name }
  let previous_scope := st1.current_scope
  let st2 := { st1 with current_scope := "class" }
  let r := rest st2
  if r.2 then r
  else ({ r.1 with current_class := none, current_scope := previous_scope },
        false)

/-! ## Concrete scan scenarios

The configuration below instantiates the environment-derived sets with a
representative sample: `dir(builtins)` contains the builtin callables,
builtin exception types and the module dunders (among them `__import__`),
and in no CPython version contains `__enter__` or user names such as
`helper` or `add`. -/

def cfgScan : AnalyzerConfig :=
  { builtins :=
      ["abs", "all", "any", "bool", "bytes", "callable", "chr", "dict", "dir",
       "enumerate", "filter", "float", "format", "getattr", "hasattr", "hash",
       "id", "int", "isinstance", "issubclass", "iter", "len", "list", "map",
       "max", "min", "next", "object", "open", "ord", "pow", "print", "range",
       "repr", "reversed", "round", "set", "setattr", "sorted", "str", "sum",
       "super", "tuple", "type", "vars", "zip", "__import__", "__name__",
       "Exception", "ValueError", "TypeError"],
    stdlib_modules := ["os", "sys", "ast", "json", "re", "math"] }

/-- File B of the forward-reference scenario (spec §8): `main()` calling the
not-yet-defined `helper()`. -/
def treeCallsHelper : AstList :=
  .cons (.functionDef "main" 1 3
    (.cons (.exprStmt (.call (.nameE "helper") .nil 2)) .nil)) .nil

/-- File A of the forward-reference scenario: the concrete `helper()`. -/
def treeDefinesHelper : AstList :=
  .cons (.functionDef "helper" 1 2 (.cons .passS .nil)) .nil

/-- The finished graph of the forward-reference scenario: file `b.py` (caller)
scanned before file `a.py` (definition). -/
def gForwardRef : Graph :=
  analyze_file cfgScan none
    (analyze_file cfgScan none Graph.empty "b.py" treeCallsHelper)
    "a.py" treeDefinesHelper

/-- Production file of the test-linker scenario: `def add(): ...`. -/
def treeProdAdd : AstList :=
  .cons (.functionDef "add" 1 2 (.cons .passS .nil)) .nil

/-- Test file of the test-linker scenario with the import at module level
(the usual placement): `from mod import add` followed by
`def test_add(): add(1, 2)`. -/
def treeTestModuleImport : AstList :=
  .cons (.importFromS "mod" [("add", none)])
  (.cons (.functionDef "test_add" 3 5
    (.cons (.exprStmt (.call (.nameE "add")
      (.cons (.constE (.vInt 1)) (.cons (.constE (.vInt 2)) .nil)) 4)) .nil))
    .nil)

/-- The finished graph of the test-linker scenario with a module-level
import. -/
def gTestScan : Graph :=
  analyze_file cfgScan none
    (analyze_file cfgScan none Graph.empty "mod.py" treeProdAdd)
    "tests/test_mod.py" treeTestModuleImport

/-- Test file variant with the import statement inside `test_add` itself. -/
def treeTestInnerImport : AstList :=
  .cons (.functionDef "test_add" 3 6
    (.cons (.importFromS "mod" [("add", none)])
    (.cons (.exprStmt (.call (.nameE "add")
      (.cons (.constE (.vInt 1)) (.cons (.constE (.vInt 2)) .nil)) 5)) .nil)))
  .nil

/-- The finished graph of the test-linker scenario with the import executed
inside the test routine. -/
def gTestScanInner : Graph :=
  analyze_file cfgScan none
    (analyze_file cfgScan none Graph.empty "mod.py" treeProdAdd)
    "tests/test_mod.py" treeTestInnerImport

/-- Production file whose `main` calls `x.__enter__()` on a non-stdlib
receiver. -/
def treeDunderCall : AstList :=
  .cons (.functionDef "main" 1 3
    (.cons (.exprStmt (.call (.attributeE (.nameE "x") "__enter__") .nil 2)) .nil))
  .nil

/-- The finished graph of the dunder-call scenario. -/
def gDunderScan : Graph :=
  analyze_file cfgScan none Graph.empty "m.py" treeDunderCall

/-- A production-file context for single-visit witnesses. -/
def ctxProdW : FileCtx :=
  { file_path := "m.py", is_test_file := false, is_example_file := false }

/-- A test-file context for single-visit witnesses. -/
def ctxTestW : FileCtx :=
  { file_path := "tests/test_mod.py", is_test_file := true,
    is_example_file := false }

/-- The analyzer's initial mutable state (module scope, empty store). -/
def stEmpty : MutState := {}

/-- A state inside a function body, as when visiting a call nested in
`main`. -/
def stInMain : MutState :=
  { current_class := none, current_function := some "main",
    current_scope := "function", graph := {} }

/-- A Function node for handcrafted query-layer graphs. -/
def mkFnNode (i : Nat) (nm fl : String) (ln : Int) : Node :=
  { id := i, labels := ["Function"],
    props := { name := some nm, file := some fl, is_reference := some false,
               line := some ln, end_line := some (ln + 1), length := some 2 } }

/-- A CALLS relationship for handcrafted query-layer graphs. -/
def mkCallRel (ri s d : Nat) (ln : Int) : Rel :=
  { rid := ri, src := s, dst := d, rtype := "CALLS",
    props := { line := some ln } }

/-- A four-node call chain `a → b → c → d`: the only path from `a` to `d`
has length 3. -/
def gChainW : Graph :=
  { nodes := [mkFnNode 0 "a" "x.py" 1, mkFnNode 1 "b" "x.py" 4,
              mkFnNode 2 "c" "y.py" 1, mkFnNode 3 "d" "y.py" 4],
    rels := [mkCallRel 0 0 1 2, mkCallRel 1 1 2 5, mkCallRel 2 2 3 2],
    nextId := 4, nextRid := 3 }

/-- Boolean success test on `Except` results. -/
def exceptIsOk {α : Type} : Except String α → Bool
  | .ok _ => true
  | .error _ => false

/-! ## Graph-preservation lemmas -/

/-- The Constant nodes of a graph. -/
def constantNodes (g : Graph) : List Node :=
  g.nodes.filter (fun n => n.labels.contains "Constant")

theorem nodes_mergeRel (g : Graph) (s d : Nat) (t : String) (p : RelProps) :
    (g.mergeRel s d t p).nodes = g.nodes := by
  unfold Graph.mergeRel; split <;> rfl

theorem nodes_deleteRels (g : Graph) (rids : List Nat) :
    (g.deleteRels rids).nodes = g.nodes := rfl

theorem nodes_foldl_pres {α : Type} (f : Graph → α → Graph)
    (hf : ∀ g a, (f g a).nodes = g.nodes) :
    ∀ (l : List α) (g : Graph), (l.foldl f g).nodes = g.nodes := by
  intro l
  induction l with
  | nil => intro g; rfl
  | cons a l ih => intro g; rw [List.foldl_cons, ih, hf]

theorem nodes_mergeRelPairs (g : Graph) (srcs dsts : List Nat) (t : String)
    (p : RelProps) : (g.mergeRelPairs srcs dsts t p).nodes = g.nodes := by
  unfold Graph.mergeRelPairs
  exact nodes_foldl_pres _ (fun g s => nodes_foldl_pres _ (fun g d => nodes_mergeRel g s d t p) dsts g) srcs g

theorem constantNodes_foldl_pres {α : Type} (f : Graph → α → Graph)
    (hf : ∀ g a, constantNodes (f g a) = constantNodes g) :
    ∀ (l : List α) (g : Graph), constantNodes (l.foldl f g) = constantNodes g := by
  intro l
  induction l with
  | nil => intro g; rfl
  | cons a l ih => intro g; rw [List.foldl_cons, ih, hf]

theorem constantNodes_mergeRelPairs (g : Graph) (srcs dsts : List Nat)
    (t : String) (p : RelProps) :
    constantNodes (g.mergeRelPairs srcs dsts t p) = constantNodes g := by
  unfold constantNodes
  rw [nodes_mergeRelPairs]

theorem constantNodes_mergeNodes (g : Graph) (labels : List String)
    (qp : NodeProps) (h : labels.contains "Constant" = false) :
    constantNodes (g.mergeNodes labels qp).1 = constantNodes g := by
  simp only [Graph.mergeNodes, constantNodes]
  split
  · rw [List.filter_append]
    have hn : (fun (n : Node) => n.labels.contains "Constant")
        { id := g.nextId, labels := labels, props := qp } = false := h
    simp only [List.filter_cons, hn]
    simp
  · rfl

theorem nodes_redirectCalls (g : Graph) (s f fp : String) :
    (redirectCalls g s f fp).nodes = g.nodes := by
  simp only [redirectCalls]
  rw [nodes_deleteRels]
  exact nodes_foldl_pres _
    (fun (g : Graph) (rd : Rel × Node) => nodes_mergeRel g rd.1.src rd.2.id "CALLS"
      { color := some edgeOrange }) _ _

theorem constantNodes_redirectCalls (g : Graph) (s f fp : String) :
    constantNodes (redirectCalls g s f fp) = constantNodes g := by
  unfold constantNodes
  rw [nodes_redirectCalls]

theorem constantNodes_functionDefUpdateGraph (ctx : FileCtx) (g : Graph)
    (fn full : String) (l e len : Int) (cc : Option String) :
    constantNodes (functionDefUpdateGraph ctx g fn full l e len cc) =
      constantNodes g := by
  have hlab : (functionLabels ctx fn cc.isSome).contains "Constant" = false := by
    unfold functionLabels
    split_ifs <;> rfl
  simp only [functionDefUpdateGraph]
  split
  · rw [constantNodes_mergeRelPairs]
    split
    · rw [constantNodes_redirectCalls, constantNodes_mergeNodes _ _ _ hlab]
    · rw [constantNodes_mergeNodes _ _ _ hlab]
  · split
    · rw [constantNodes_redirectCalls, constantNodes_mergeNodes _ _ _ hlab]
    · rw [constantNodes_mergeNodes _ _ _ hlab]

theorem constantNodes_classDefUpdateGraph (ctx : FileCtx) (g : Graph)
    (cn : String) (l e : Int) :
    constantNodes (classDefUpdateGraph ctx g cn l e) = constantNodes g := by
  simp only [classDefUpdateGraph]
  apply constantNodes_mergeNodes
  split_ifs <;> rfl

theorem constantNodes_visitCallUpdateGraph (ctx : FileCtx) (g : Graph)
    (cf curf : Option String) (l : Int) (a : String) :
    constantNodes (visitCallUpdateGraph ctx g cf curf l a) = constantNodes g := by
  simp only [visitCallUpdateGraph]
  split
  · split
    · exact constantNodes_mergeRelPairs _ _ _ _ _
    · rw [constantNodes_mergeRelPairs]
      exact constantNodes_mergeNodes _ _ _ rfl
  · rfl

theorem constantNodes_visit_Import (ctx : FileCtx) (st : MutState)
    (names : List (String × Option String)) :
    constantNodes (visit_Import ctx st names).graph = constantNodes st.graph := by
  show constantNodes (names.foldl _ st.graph) = constantNodes st.graph
  apply constantNodes_foldl_pres
  intro g nmAs
  show constantNodes (if ctx.is_test_file then _ else g) = constantNodes g
  split
  · rw [constantNodes_mergeRelPairs]
    exact constantNodes_mergeNodes _ _ _ rfl
  · rfl

theorem constantNodes_visit_ImportFrom (ctx : FileCtx) (st : MutState)
    (module : String) (names : List (String × Option String)) :
    constantNodes (visit_ImportFrom ctx st module names).graph =
      constantNodes st.graph := by
  show constantNodes (names.foldl _ st.graph) = constantNodes st.graph
  apply constantNodes_foldl_pres
  intro g nmAs
  show constantNodes (if ctx.is_test_file then _ else g) = constantNodes g
  split
  · rw [constantNodes_mergeRelPairs]
    exact constantNodes_mergeNodes _ _ _ rfl
  · rfl

mutual
/-- In a Test-classified unit no visit step changes the set of Constant
nodes: `visit_Assign` returns before its extraction loop when
`self.is_test_file` holds, and no other visit method ever merges a
Constant-labelled node. -/
theorem constantNodes_visitNode (cfg : AnalyzerConfig) (ctx : FileCtx)
    (h : ctx.is_test_file = true) (st : MutState) :
    (a : Ast) →
      constantNodes (visitNode cfg ctx st a).graph = constantNodes st.graph
  | .functionDef function_name l e body => by
    simp only [visitNode]
    split
    · rfl
    · dsimp only
      rw [constantNodes_visitAstList cfg ctx h _ body]
      try dsimp only
      rw [constantNodes_functionDefUpdateGraph]
  | .classDef class_name l e body => by
    simp only [visitNode]
    try dsimp only
    rw [constantNodes_visitAstList cfg ctx h _ body]
    try dsimp only
    rw [constantNodes_classDefUpdateGraph]
  | .assign targets value l e => by
    simp only [visitNode]
    split
    · rw [constantNodes_visitNode cfg ctx h _ value,
        constantNodes_visitAstList cfg ctx h _ targets]
    · rename_i hc
      exact absurd h hc
  | .call func args l => by
    simp only [visitNode]
    split
    · rfl
    · split
      · rfl
      · rw [constantNodes_visitAstList cfg ctx h _ args,
          constantNodes_visitNode cfg ctx h _ func]
        try dsimp only
        rw [constantNodes_visitCallUpdateGraph]
  | .importS names => by
    simp only [visitNode]
    exact constantNodes_visit_Import ctx st names
  | .importFromS module names => by
    simp only [visitNode]
    exact constantNodes_visit_ImportFrom ctx st module names
  | .attributeE v attr => by
    simp only [visitNode]
    exact constantNodes_visitNode cfg ctx h st v
  | .nameE _ => rfl
  | .constE _ => rfl
  | .listE elts => by
    simp only [visitNode]
    exact constantNodes_visitAstList cfg ctx h st elts
  | .dictE keys values => by
    simp only [visitNode]
    rw [constantNodes_visitAstList cfg ctx h _ values,
      constantNodes_visitOptKeys cfg ctx h _ keys]
  | .tupleE elts => by
    simp only [visitNode]
    exact constantNodes_visitAstList cfg ctx h st elts
  | .setE elts => by
    simp only [visitNode]
    exact constantNodes_visitAstList cfg ctx h st elts
  | .usubE o => by
    simp only [visitNode]
    exact constantNodes_visitNode cfg ctx h st o
  | .uopOtherE o => by
    simp only [visitNode]
    exact constantNodes_visitNode cfg ctx h st o
  | .exprStmt v => by
    simp only [visitNode]
    exact constantNodes_visitNode cfg ctx h st v
  | .passS => rfl

theorem constantNodes_visitAstList (cfg : AnalyzerConfig) (ctx : FileCtx)
    (h : ctx.is_test_file = true) (st : MutState) :
    (l : AstList) →
      constantNodes (visitAstList cfg ctx st l).graph = constantNodes st.graph
  | .nil => rfl
  | .cons a l => by
    simp only [visitAstList]
    rw [constantNodes_visitAstList cfg ctx h _ l,
      constantNodes_visitNode cfg ctx h st a]

theorem constantNodes_visitOptKeys (cfg : AnalyzerConfig) (ctx : FileCtx)
    (h : ctx.is_test_file = true) (st : MutState) :
    (l : AstOptList) →
      constantNodes (visitOptKeys cfg ctx st l).graph = constantNodes st.graph
  | .nil => rfl
  | .consNone l => by
    simp only [visitOptKeys]
    exact constantNodes_visitOptKeys cfg ctx h st l
  | .consSome a l => by
    simp only [visitOptKeys]
    rw [constantNodes_visitOptKeys cfg ctx h _ l,
      constantNodes_visitNode cfg ctx h st a]
end

/-! ## Claims -/

/-- C1 (counterexample): in the forward-reference scenario (file `b.py` with
`main()` calling `helper()` scanned before file `a.py` defining `helper`),
the finished graph still contains one placeholder Routine named `helper`
(`is_reference = true`) — the redirect statement deletes only the matched
CALLS relationships, never the placeholder node, so the claimed count of
zero placeholders is false. -/
theorem c1_counterexample :
    (gForwardRef.nodes.filter (fun n =>
      n.props.name == some "helper" && n.props.is_reference == some true)).length
      = 1 := by
  decide

/-- C1 (amended): after the scan, exactly one concrete Routine `helper`
exists (in the defining file `a.py`), the single CallEdge runs from `main`
to that concrete Routine, and resolution has redirected every inbound
CallEdge away from the placeholder — but the placeholder node itself
survives as an orphan with no inbound CallEdge. -/
theorem c1_amended :
    (gForwardRef.nodes.filter (fun n =>
      n.props.name == some "helper" && n.props.is_reference == some false &&
      n.props.file == some "a.py")).length = 1 ∧
    (gForwardRef.nodes.filter (fun n =>
      n.props.name == some "helper" && n.props.is_reference == some false)).length
      = 1 ∧
    (gForwardRef.rels.filter (fun r => r.rtype == "CALLS")).length = 1 ∧
    gForwardRef.rels.any (fun r =>
      r.rtype == "CALLS" &&
      (match gForwardRef.nodeById r.src, gForwardRef.nodeById r.dst with
       | some a, some b =>
         a.props.name == some "main" && b.props.name == some "helper" &&
         b.props.is_reference == some false && b.props.file == some "a.py"
       | _, _ => false)) = true ∧
    (gForwardRef.nodes.filter (fun n =>
      n.props.name == some "helper" && n.props.is_reference == some true)).length
      = 1 ∧
    gForwardRef.rels.all (fun r =>
      match gForwardRef.nodeById r.dst with
      | some b => !(b.props.is_reference == some true)
      | none => true) = true := by
  decide

/-- C2 (counterexample): in the scenario where the Test-classified file
`tests/test_mod.py` imports production `add` at module level and defines
`test_add` calling it, the file holds an ImportBinding named `add`, `add` is
a non-test Routine and `test_add` a test Routine — yet no TestEdge tagged
`import` exists, because the IMPORTS link is only attached to the function
being visited and a module-level import runs with `current_function = None`. -/
theorem c2_counterexample :
    gTestScan.nodes.any (fun n =>
      n.labels.contains "Import" && n.props.name == some "add" &&
      n.props.file == some "tests/test_mod.py") = true ∧
    gTestScan.nodes.any (fun n =>
      n.labels.contains "Function" && !(n.labels.contains "TestFunction") &&
      n.props.name == some "add") = true ∧
    gTestScan.nodes.any (fun n =>
      n.labels.contains "TestFunction" && n.props.name == some "test_add") = true ∧
    (gTestScan.rels.filter (fun r =>
      r.rtype == "TESTS" && r.props.method == some "import")).length = 0 := by
  decide

/-- C2 (amended): the `import` TestEdge requires the TestRoutine itself to
hold the ImportBinding (an IMPORTS relationship, created only when the import
statement executes inside that routine); with the module-level import only
the `naming_pattern` and `call` TestEdges appear, and with the import inside
`test_add` all three distinct TestEdges (`naming_pattern`, `import`, `call`)
link `test_add` to `add`. -/
theorem c2_amended :
    (gTestScan.rels.filter (fun r => r.rtype == "TESTS")).map
        (fun r => r.props.method) = [some "naming_pattern", some "call"] ∧
    (gTestScanInner.rels.filter (fun r => r.rtype == "TESTS")).map
        (fun r => r.props.method) =
      [some "naming_pattern", some "import", some "call"] ∧
    gTestScanInner.rels.all (fun r =>
      !(r.rtype == "TESTS") ||
      (match gTestScanInner.nodeById r.src, gTestScanInner.nodeById r.dst with
       | some t, some p =>
         t.props.name == some "test_add" && p.props.name == some "add"
       | _, _ => false)) = true := by
  decide

/-- C3 (counterexample): with the backing store unavailable, the
constant-duplication tools propagate the failure (an exception out of
`get_db_session`) instead of returning an empty collection as the claim
requires of every read operation. -/
theorem c3_counterexample :
    exceptIsOk (repetitive_constants none 10) = false ∧
    exceptIsOk (repetitive_constant_names none 10) = false ∧
    ¬ repetitive_constants none 10 = Except.ok [] := by
  refine ⟨rfl, rfl, ?_⟩
  intro h
  exact Except.noConfusion h

/-- C3 (amended): read operations built on the `q` helper do return an empty
collection when the store is unavailable, but `repetitive_constants` and
`repetitive_constant_names` open their own session via `get_db_session` and
propagate the failure. -/
theorem c3_amended (fn source_fn target_fn : String) (max_depth limit : Nat) :
    callees none fn = [] ∧ callers none fn = [] ∧
    uncalled_functions none = [] ∧ recursive_functions none = [] ∧
    transitive_calls none source_fn target_fn max_depth = [] ∧
    get_test_coverage_ratio none = [] ∧
    exceptIsOk (repetitive_constants none limit) = false ∧
    exceptIsOk (repetitive_constant_names none limit) = false :=
  ⟨rfl, rfl, rfl, rfl, rfl, rfl, rfl, rfl⟩

/-- C4 (counterexample): when the nested visit raises (here: a `rest` that
raises immediately), `visit_FunctionDef` leaves `current_scope = "function"`
and `current_function` set — the scope state saved on entry is not restored
on the exception path, contradicting the claim. -/
theorem c4_counterexample :
    (visit_FunctionDef_scope stEmpty "main" (fun s => (s, true))).1.current_scope
      = "function" ∧
    (visit_FunctionDef_scope stEmpty "main" (fun s => (s, true))).1.current_function
      = some "main" ∧
    (visit_FunctionDef_scope stEmpty "main" (fun s => (s, true))).2 = true ∧
    stEmpty.current_scope = "module" ∧ stEmpty.current_function = none := by
  decide

/-- C4 (amended): the scope state is restored on the normal exit path only;
when a nested visit raises, the exception propagates and the scope fields
keep the values set for the inner node (`"function"` / `"class"`, with
`current_function` / `current_class` still set), since the source methods
contain no `try`/`finally`. -/
theorem c4_amended (st : MutState) (function_name class_name : String)
    (rest : MutState → MutState × Bool)
    (hd : isDunderName function_name = false)
    (hsc : ∀ s, (rest s).1.current_scope = s.current_scope) :
    ((∀ s, (rest s).2 = false) →
      (visit_FunctionDef_scope st function_name rest).1.current_scope
          = st.current_scope ∧
      (visit_FunctionDef_scope st function_name rest).1.current_function = none ∧
      (visit_ClassDef_scope st class_name rest).1.current_scope
          = st.current_scope ∧
      (visit_ClassDef_scope st class_name rest).1.current_class = none) ∧
    ((∀ s, (rest s).2 = true) →
      (visit_FunctionDef_scope st function_name rest).1.current_scope
          = "function" ∧
      (visit_FunctionDef_scope st function_name rest).2 = true ∧
      (visit_ClassDef_scope st class_name rest).1.current_scope = "class" ∧
      (visit_ClassDef_scope st class_name rest).2 = true) := by
  constructor
  · intro hok
    simp only [visit_FunctionDef_scope, visit_ClassDef_scope, hd,
      Bool.false_eq_true, if_false, hok, if_false]
    simp [hok]
  · intro hraise
    simp only [visit_FunctionDef_scope, visit_ClassDef_scope, hd,
      Bool.false_eq_true, if_false]
    simp [hraise, hsc]

/-- C4 (witness): the amended theorem applied to the raising `rest` of the
counterexample scenario. -/
theorem c4_amended_witness :
    (visit_FunctionDef_scope stEmpty "main" (fun s => (s, true))).1.current_scope
      = "function" :=
  ((c4_amended stEmpty "main" "C" (fun s => (s, true)) (by decide)
    (fun _ => rfl)).2 (fun _ => rfl)).1

/-- C5 (code evaluation at the failing input): on a graph with zero non-test
routines (here the empty graph) `get_test_coverage_ratio` returns no rows at
all — the `WITH total_functions, count(f)` clause aggregates with a grouping
key over zero rows and therefore yields zero rows, so the `CASE ... ELSE 0`
branch that was written for this situation is unreachable and the claimed
`coverage_ratio = 0` row is never produced. -/
theorem c5_code_eval :
    get_test_coverage_ratio (some Graph.empty) = [] ∧
    get_test_coverage_ratio_rows Graph.empty = [] :=
  ⟨rfl, rfl⟩

/-- C6 (counterexample): scanning a production file whose `main` calls
`x.__enter__()` (receiver not a detected stdlib module, `__enter__` not in
`dir(builtins)`) creates a placeholder Routine named `__enter__` — a
dunder-named Routine entity, contradicting the claimed invariant. -/
theorem c6_counterexample :
    gDunderScan.nodes.any (fun n =>
      (match n.props.name with
       | some nm => isDunderName nm
       | none => false) && n.props.is_reference == some true) = true ∧
    gDunderScan.nodes.any (fun n => n.props.name == some "__enter__") = true := by
  decide

/-- C6 (amended): dunder-named *definitions* never become Routine entities
(`visit_FunctionDef` returns immediately and changes nothing), but a call
whose callee attribute is dunder-named and not a recognized builtin does
create a dunder-named placeholder Routine. -/
theorem c6_amended (cfg : AnalyzerConfig) (ctx : FileCtx) (st : MutState)
    (function_name : String) (l e : Int) (body : AstList)
    (hd : isDunderName function_name = true) :
    visitNode cfg ctx st (.functionDef function_name l e body) = st ∧
    gDunderScan.nodes.any (fun n =>
      n.props.name == some "__enter__" && n.props.is_reference == some true)
      = true := by
  constructor
  · simp only [visitNode]
    rw [if_pos hd]
  · decide

/-- C6 (witness): the amended theorem applied to a dunder definition in a
production file. -/
theorem c6_amended_witness :
    visitNode cfgScan ctxProdW stEmpty (.functionDef "__init__" 1 2 .nil)
      = stEmpty :=
  (c6_amended cfgScan ctxProdW stEmpty "__init__" 1 2 .nil (by decide)).1

/-- C7: a path one of whose segments (as the classifier normalizes the path)
equals `examples` is classified Example and never Test: `is_test_file`
returns `False` for it under any custom test-directory or test-filename
patterns, because the `is_example_file` check precedes every pattern
check. -/
theorem c7_theorem (path : String) (custom_patterns : Option CustomPatterns)
    (h : "examples" ∈ pySplitSlash (pyReplaceBackslash (normpath path))) :
    is_example_file path = true ∧ is_test_file path custom_patterns = false := by
  have hex : is_example_file path = true := by
    unfold is_example_file
    have hany : (pySplitSlash (pyReplaceBackslash (normpath path))).any
        (fun part => part == "examples") = true :=
      List.any_eq_true.mpr ⟨"examples", h, by simp⟩
    simp [hany]
  refine ⟨hex, ?_⟩
  unfold is_test_file
  simp [hex]

/-- C7 (witness): `src/examples/test_utils.py` matches the default
test-filename glob and a custom test-directory pattern, yet is classified
Example, not Test. -/
theorem c7_witness :
    is_example_file "src/examples/test_utils.py" = true ∧
    is_test_file "src/examples/test_utils.py"
      (some { test_dirs := some ["examples/"], test_files := some ["test_*.py"] })
      = false :=
  c7_theorem "src/examples/test_utils.py"
    (some { test_dirs := some ["examples/"], test_files := some ["test_*.py"] })
    (by decide)

/-- C9: in a Test-classified file no Constant entity is ever created — the
set of Constant nodes after visiting any assignment equals the set before,
even when an assigned name is all-caps, contains an underscore and is longer
than one character. -/
theorem c9_theorem (cfg : AnalyzerConfig) (ctx : FileCtx) (st : MutState)
    (targets : AstList) (value : Ast) (l e : Int)
    (h : ctx.is_test_file = true) :
    constantNodes (visitNode cfg ctx st (.assign targets value l e)).graph
      = constantNodes st.graph :=
  constantNodes_visitNode cfg ctx h st _

/-- C9 (witness): `MAX_RETRY_COUNT = 3` in a test file — the name satisfies
the constant-naming convention, yet no Constant node is recorded. -/
theorem c9_witness :
    isConstantName "MAX_RETRY_COUNT" = true ∧
    constantNodes (visitNode cfgScan ctxTestW stEmpty
      (.assign (.cons (.nameE "MAX_RETRY_COUNT") .nil) (.constE (.vInt 3)) 1 1)).graph
      = constantNodes stEmpty.graph :=
  ⟨by decide, c9_theorem cfgScan ctxTestW stEmpty _ _ 1 1 rfl⟩

/-- C10: when the extracted callee name is a recognized builtin, or the
callee is not a builtin but its receiver is a detected stdlib module,
`visit_Call` returns before `generic_visit`, leaving the analyzer state —
graph included — untouched; no nested call in the arguments is ever
visited. -/
theorem c10_theorem (cfg : AnalyzerConfig) (ctx : FileCtx) (st : MutState)
    (func : Ast) (args : AstList) (l : Int)
    (h : (match (calledFuncModule func).1 with
          | some c => cfg.builtins.contains c
          | none => false) = true ∨
         ((match (calledFuncModule func).1 with
           | some c => cfg.builtins.contains c
           | none => false) = false ∧
          (match (calledFuncModule func).2 with
           | some m => is_stdlib_module cfg m
           | none => false) = true)) :
    visitNode cfg ctx st (.call func args l) = st := by
  simp only [visitNode]
  rcases h with h | ⟨h1, h2⟩
  · rw [if_pos h]
  · rw [if_neg (by rw [h1]; exact Bool.false_ne_true), if_pos h2]

theorem pathsToTarget_length_bounds (g : Graph) (t : String) :
    ∀ (fuel cur : Nat) (used : List Nat) (p : List Rel),
      p ∈ pathsToTarget g t fuel cur used → 1 ≤ p.length ∧ p.length ≤ fuel := by
  intro fuel
  induction fuel with
  | zero => intro cur used p hp; simp [pathsToTarget] at hp
  | succ fuel ih =>
    intro cur used p hp
    simp only [pathsToTarget] at hp
    obtain ⟨r, hr, hp⟩ := List.mem_flatMap.mp hp
    rcases List.mem_append.mp hp with hp | hp
    · split at hp
      · rw [List.mem_singleton.mp hp]
        simp
      · simp at hp
    · obtain ⟨p', hp', rfl⟩ := List.mem_map.mp hp
      have hb := ih r.dst (r.rid :: used) p' hp'
      simp only [List.length_cons]
      omega

theorem pathsToTarget_mono (g : Graph) (t : String) :
    ∀ (fuel fuel' : Nat), fuel ≤ fuel' →
      ∀ (cur : Nat) (used : List Nat) (p : List Rel),
        p ∈ pathsToTarget g t fuel cur used →
          p ∈ pathsToTarget g t fuel' cur used := by
  intro fuel
  induction fuel with
  | zero => intro _ _ _ _ p hp; simp [pathsToTarget] at hp
  | succ fuel ih =>
    intro fuel' hf cur used p hp
    obtain ⟨f', rfl⟩ : ∃ f', fuel' = f' + 1 := ⟨fuel' - 1, by omega⟩
    simp only [pathsToTarget] at hp ⊢
    obtain ⟨r, hr, hp⟩ := List.mem_flatMap.mp hp
    refine List.mem_flatMap.mpr ⟨r, hr, ?_⟩
    rcases List.mem_append.mp hp with hp | hp
    · exact List.mem_append.mpr (Or.inl hp)
    · obtain ⟨p', hp', rfl⟩ := List.mem_map.mp hp
      exact List.mem_append.mpr (Or.inr (List.mem_map.mpr
        ⟨p', ih f' (by omega) r.dst (r.rid :: used) p' hp', rfl⟩))

theorem matchedPaths_length_bounds {g : Graph} {s t : String} {fuel : Nat}
    {sp : Nat × List Rel} (h : sp ∈ matchedPaths g s t fuel) :
    1 ≤ sp.2.length ∧ sp.2.length ≤ fuel := by
  obtain ⟨src, hsrc, hsp⟩ := List.mem_flatMap.mp h
  obtain ⟨p, hp, rfl⟩ := List.mem_map.mp hsp
  exact pathsToTarget_length_bounds g t fuel src.id [] p hp

theorem matchedPaths_mono {g : Graph} {s t : String} {fuel fuel' : Nat}
    (hf : fuel ≤ fuel') {sp : Nat × List Rel}
    (h : sp ∈ matchedPaths g s t fuel) : sp ∈ matchedPaths g s t fuel' := by
  obtain ⟨src, hsrc, hsp⟩ := List.mem_flatMap.mp h
  obtain ⟨p, hp, rfl⟩ := List.mem_map.mp hsp
  exact List.mem_flatMap.mpr ⟨src, hsrc, List.mem_map.mpr
    ⟨p, pathsToTarget_mono g t fuel fuel' hf src.id [] p hp, rfl⟩⟩

theorem pathRowLe_trans : ∀ a b c : PathRow, pathRowLe a b = true →
    pathRowLe b c = true → pathRowLe a c = true := by
  intro a b c hab hbc
  exact decide_eq_true (Nat.le_trans (of_decide_eq_true hab) (of_decide_eq_true hbc))

theorem pathRowLe_total : ∀ a b : PathRow,
    (pathRowLe a b || pathRowLe b a) = true := by
  intro a b
  unfold pathRowLe
  rcases Nat.le_total a.path_length b.path_length with h | h <;> simp [h]

/-- C8: `transitive_calls` returns only CALLS-paths from the source routine
to the target routine of length between 1 and `max_depth` (each row built
from a matched path, with one file annotation per node on the path), ordered
shortest first, at most 10 rows; and when every source-to-target path is
longer than `max_depth` it returns no rows. -/
theorem c8_theorem (g : Graph) (source_fn target_fn : String) (max_depth : Nat) :
    (∀ row ∈ transitive_calls (some g) source_fn target_fn max_depth,
        (1 ≤ row.path_length ∧ row.path_length ≤ max_depth) ∧
        row.function_files.length = row.path_length + 1 ∧
        ∃ sp ∈ matchedPaths g source_fn target_fn max_depth,
          sp.2.length ≤ max_depth ∧ row = mkPathRow g sp.1 sp.2) ∧
    List.Sorted (fun a b => a.path_length ≤ b.path_length)
        (transitive_calls (some g) source_fn target_fn max_depth) ∧
    (transitive_calls (some g) source_fn target_fn max_depth).length ≤ 10 ∧
    ((∀ sp ∈ matchedPaths g source_fn target_fn (max max_depth g.rels.length),
        max_depth < sp.2.length) →
      transitive_calls (some g) source_fn target_fn max_depth = []) := by
  have hA : ∀ row ∈ transitive_calls (some g) source_fn target_fn max_depth,
      (1 ≤ row.path_length ∧ row.path_length ≤ max_depth) ∧
      row.function_files.length = row.path_length + 1 ∧
      ∃ sp ∈ matchedPaths g source_fn target_fn max_depth,
        sp.2.length ≤ max_depth ∧ row = mkPathRow g sp.1 sp.2 := by
    intro row hrow
    have h1 : row ∈ (((matchedPaths g source_fn target_fn max_depth).filter
        (fun sp => sp.2.length ≤ max_depth)).map
          (fun sp => mkPathRow g sp.1 sp.2)).mergeSort pathRowLe :=
      (List.take_sublist 10 _).subset hrow
    have h2 := List.mem_mergeSort.mp h1
    obtain ⟨sp, hsp, rfl⟩ := List.mem_map.mp h2
    have hfil := List.mem_filter.mp hsp
    have hmem : sp ∈ matchedPaths g source_fn target_fn max_depth := hfil.1
    have hlen : sp.2.length ≤ max_depth := of_decide_eq_true hfil.2
    have hb := matchedPaths_length_bounds hmem
    refine ⟨⟨?_, ?_⟩, ?_, sp, hmem, hlen, rfl⟩
    · simpa [mkPathRow] using hb.1
    · simpa [mkPathRow] using hlen
    · simp [mkPathRow, pathNodeIds]
  refine ⟨hA, ?_, ?_, ?_⟩
  · have hs := List.sorted_mergeSort pathRowLe_trans pathRowLe_total
      (((matchedPaths g source_fn target_fn max_depth).filter
        (fun sp => sp.2.length ≤ max_depth)).map
          (fun sp => mkPathRow g sp.1 sp.2))
    exact (List.Pairwise.sublist (List.take_sublist 10 _) hs).imp
      (fun hab => of_decide_eq_true hab)
  · have hrep : transitive_calls (some g) source_fn target_fn max_depth =
        ((((matchedPaths g source_fn target_fn max_depth).filter
          (fun sp => sp.2.length ≤ max_depth)).map
            (fun sp => mkPathRow g sp.1 sp.2)).mergeSort pathRowLe).take 10 := rfl
    rw [hrep, List.length_take]
    exact Nat.min_le_left _ _
  · intro hall
    by_contra hne
    obtain ⟨row, hrow⟩ := List.exists_mem_of_ne_nil _ hne
    obtain ⟨_, _, sp, hmem, hlen, _⟩ := hA row hrow
    have hmax := matchedPaths_mono (Nat.le_max_left max_depth g.rels.length) hmem
    have := hall sp hmax
    omega

/-- C8 (witness): on the chain `a → b → c → d` the only path from `a` to `d`
has length 3, so `transitive_calls` with `max_depth = 2` returns no rows. -/
theorem c8_witness : transitive_calls (some gChainW) "a" "d" 2 = [] :=
  (c8_theorem gChainW "a" "d" 2).2.2.2 (by decide)

/-- C10 (witness): `print(helper())` inside `main` in a production file
leaves the state unchanged — no CallEdge and no placeholder Routine for the
nested `helper()`. -/
theorem c10_witness :
    visitNode cfgScan ctxProdW stInMain
      (.call (.nameE "print") (.cons (.call (.nameE "helper") .nil 2) .nil) 2)
      = stInMain :=
  c10_theorem cfgScan ctxProdW stInMain _ _ 2 (Or.inl (by decide))

end CodeScan
